import Mathlib

/-!
Shallow embedding of the `erddapy.array_like` package: `connection.py`
(class `ERDDAPConnection`) and `datasets.py` (class `ERDDAPDataset` and its
subclasses `TableDataset`, `GridDataset`).

External collaborators living in `erddapy.core.url` (the transport `urlopen`,
the URL builders `get_download_url` / `get_info_url`, and the URL parser) are
abstracted as function parameters or as explicit input data; every definition
below mirrors a function, method or property of the two source files.
-/

/-- Python `s.rstrip(c)` for a one-character strip set: remove every trailing
occurrence of the character `c`. -/
def pyRstrip (s : String) (c : Char) : String :=
  ⟨List.rdropWhile (fun x => x = c) s.data⟩

/-- Last character of a string, if any. -/
def strLastChar (s : String) : Option Char :=
  s.data.getLast?

/-- The string `sub` occurs contiguously inside `s`. -/
def strMentions (s sub : String) : Prop :=
  sub.data <:+: s.data

instance (s sub : String) : Decidable (strMentions s sub) :=
  List.decidableInfix sub.data s.data

/-- Python exception classes raised by the modelled code paths. -/
inductive PyErr where
  | typeError (msg : String)
  | valueError (msg : String)
  | unboundLocalError (msg : String)
  deriving DecidableEq

/-- Connection state from `connection.py`: a canonical server string plus the
optional `auth` credential pair (`None` or a tuple in Python). The source
fields are `_server` and `_auth`, exposed through `server` / `auth`
properties. -/
structure ERDDAPConnection where
  server : String
  auth : Option (String × String)
  deriving DecidableEq

/-- Python values that can reach the server-identifier type checks: strings,
`ERDDAPConnection` instances, and representatives of anything else (an `int`
or `None`). -/
inductive PyValue where
  | str (s : String)
  | conn (c : ERDDAPConnection)
  | int (n : Int)
  | pynone
  deriving DecidableEq

/-- Python `str(v)` as interpolated into the error f-strings. -/
def pyStr : PyValue → String
  | .str s => s
  | .conn c =>
      "<erddapy.array_like.connection.ERDDAPConnection to server \x27" ++ c.server ++ "\x27>"
  | .int n => toString n
  | .pynone => "None"

/-- Python `str(type(v))` as interpolated into the error f-strings. -/
def pyTypeStr : PyValue → String
  | .str _ => "<class \x27str\x27>"
  | .conn _ => "<class \x27erddapy.array_like.connection.ERDDAPConnection\x27>"
  | .int _ => "<class \x27int\x27>"
  | .pynone => "<class \x27NoneType\x27>"

/-- A value is neither a Python string nor an `ERDDAPConnection` instance. -/
def PyValue.isOther : PyValue → Bool
  | .str _ => false
  | .conn _ => false
  | _ => true

namespace ERDDAPConnection

/-- Classmethod `ERDDAPConnection.to_string`: a string or a connection is
normalized by stripping trailing slashes, anything else raises `TypeError`
with the message of `connection.py` lines 48-51. -/
def to_string (value : PyValue) : Except PyErr String :=
  match value with
  | .str s => .ok (pyRstrip s '/')
  | .conn c => .ok (pyRstrip c.server '/')
  | v =>
      .error (.typeError
        ("Server must be either a string or an instance of ERDDAPConnection. \x27"
          ++ pyStr v ++ "\x27 was passed."))

/-- Constructor `ERDDAPConnection.__init__`: `_server = to_string(server)`,
`_auth = auth`. -/
def init (server : PyValue) (auth : Option (String × String)) :
    Except PyErr ERDDAPConnection :=
  (to_string server).map (fun s => ⟨s, auth⟩)

/-- Property setter for `server`: `_server = to_string(value)`. -/
def set_server (c : ERDDAPConnection) (value : PyValue) :
    Except PyErr ERDDAPConnection :=
  (to_string value).map (fun s => ⟨s, c.auth⟩)

end ERDDAPConnection

/-- Metadata mapping of one dataset: variable name to attribute mapping, both
modelled as insertion-ordered association lists (Python dicts). -/
abbrev Meta := List (String × List (String × String))

/-- Python dict membership-plus-lookup on an association list. -/
def dictLookup (k : String) (d : List (String × String)) : Option String :=
  match d with
  | [] => none
  | (k2, v) :: rest => if k2 = k then some v else dictLookup k rest

/-- Scanner for Python `str.split(sep)` over character lists: a left-to-right
non-overlapping scan, structural on a fuel argument (any fuel exceeding the
input length gives the scan's true result). -/
def charsSplit (sep : List Char) : Nat → List Char → List Char →
    List (List Char)
  | 0, l, cur => [cur ++ l]
  | fuel + 1, l, cur =>
      match l with
      | [] => [cur]
      | c :: rest =>
          if sep.isPrefixOf (c :: rest) then
            cur :: charsSplit sep fuel ((c :: rest).drop sep.length) []
          else
            charsSplit sep fuel rest (cur ++ [c])

/-- Python `s.split(sep)` for a non-empty separator. -/
def pySplit (s sep : String) : List String :=
  (charsSplit sep.data (s.data.length + 1) s.data []).map String.mk

/-- Concrete class of a dataset object: `ERDDAPDataset` itself or one of the
subclasses `TableDataset` / `GridDataset` (pure tag types). -/
inductive DatasetKind where
  | base
  | table
  | grid
  deriving DecidableEq

/-- Dataset state from `datasets.py`: `dataset_id`, the owned `_connection`,
the lazily-defaulted `_variables` and `_constraints`, the `_extension` tag and
the `_meta` attribute (initialized to `None` and never assigned by any method
of the source). `kind` records the concrete class. -/
structure ERDDAPDataset where
  kind : DatasetKind
  dataset_id : String
  _connection : ERDDAPConnection
  _variables : Option (List String)
  _constraints : Option (List (String × String))
  _extension : String
  _meta : Option Meta
  deriving DecidableEq

namespace ERDDAPDataset

/-- Constructor `ERDDAPDataset.__init__`:
`_connection = ERDDAPConnection(ERDDAPConnection.to_string(connection))`,
remaining arguments stored as given, `_meta = None`. -/
def init (kind : DatasetKind) (dataset_id : String) (connection : PyValue)
    (vars : Option (List String)) (cons : Option (List (String × String)))
    (extension : String) : Except PyErr ERDDAPDataset := do
  let s ← ERDDAPConnection.to_string connection
  let c ← ERDDAPConnection.init (.str s) none
  pure ⟨kind, dataset_id, c, vars, cons, extension, none⟩

/-- Lookup table `protocol` inside `get_download_url`, keyed by the concrete
class: `TableDataset ↦ "tabledap"`, `GridDataset ↦ "griddap"`,
`ERDDAPDataset ↦ None`. -/
def protocolTag : DatasetKind → Option String
  | .table => some "tabledap"
  | .grid => some "griddap"
  | .base => none

end ERDDAPDataset

namespace ERDDAPDataset

/-- Memoization state of the `lru_cache` entry of `get_meta` for one Dataset
instance, plus the number of transport fetches (`urlopen`) performed. -/
structure MetaState where
  cache : Option Meta
  fetch_count : Nat
  deriving DecidableEq

/-- Method `ERDDAPDataset.get_meta` under `@lru_cache(maxsize=None)`: a cache
hit returns the stored mapping; a miss performs the fetch-and-pivot (its
result abstracted as `fetched`, since transport and table parsing are external
collaborators) and records it. -/
def get_meta (fetched : Meta) (st : MetaState) : Meta × MetaState :=
  match st.cache with
  | some m => (m, st)
  | none => (fetched, ⟨some fetched, st.fetch_count + 1⟩)

/-- Property `ERDDAPDataset.meta`: `self.get_meta() if (self._meta is None)
else self._meta`. -/
def meta_value (d_meta : Option Meta) (fetched : Meta) (st : MetaState) :
    Meta × MetaState :=
  match d_meta with
  | some m => (m, st)
  | none => get_meta fetched st

/-- Repeated accesses to the `meta` property of one instance whose `_meta`
attribute is `None` (as left by the constructor; no source code path ever
assigns it). -/
def metaAccesses (fetched : Meta) : Nat → MetaState → MetaState
  | 0, st => st
  | n + 1, st => metaAccesses fetched n (meta_value none fetched st).2

/-- Python tuple unpacking `lo, hi = value.split(", ")`: a `ValueError` unless
the split yields exactly two parts. -/
def split_actual_range (v : String) : Except PyErr (String × String) :=
  match pySplit v ", " with
  | [lo, hi] => .ok (lo, hi)
  | parts =>
      if parts.length < 2 then
        .error (.valueError
          ("not enough values to unpack (expected 2, got "
            ++ toString parts.length ++ ")"))
      else
        .error (.valueError "too many values to unpack (expected 2)")

/-- Loop body of the `constraints` property: for each metadata entry whose
attributes contain `actual_range`, insert `">=" + key ↦ lo` and
`"<=" + key ↦ hi` into the constraints dict, in iteration order. -/
def derive_constraints : Meta → Except PyErr (List (String × String))
  | [] => .ok []
  | (key, attrs) :: rest =>
      match dictLookup "actual_range" attrs with
      | some v => do
          let (lo, hi) ← split_actual_range v
          let tail ← derive_constraints rest
          pure ((">=" ++ key, lo) :: ("<=" ++ key, hi) :: tail)
      | none => derive_constraints rest

/-- Property `ERDDAPDataset.constraints`: return `_constraints` when set, else
derive the default range constraints from the `meta` property (`fetched` and
`st` are the transport result and memoization state feeding `meta`). -/
def constraints_value (d : ERDDAPDataset) (fetched : Meta) (st : MetaState) :
    Except PyErr (List (String × String)) :=
  match d._constraints with
  | some c => .ok c
  | none => derive_constraints (meta_value d._meta fetched st).1

/-- Property `ERDDAPDataset.variables`: return `_variables` when set, else
derive the variable list as the key list of the `meta` property (the source
also caches it in place; the derived value is what is returned and what the
model threads on). -/
def variables_value (d : ERDDAPDataset) (fetched : Meta) (st : MetaState) :
    List String × MetaState :=
  match d._variables with
  | some vs => (vs, st)
  | none =>
      ((meta_value d._meta fetched st).1.map Prod.fst,
        (meta_value d._meta fetched st).2)

/-- Method `ERDDAPDataset.get_download_url`: build the URL via the external
builder `erddapy.core.url.get_download_url` (abstracted as `builder`) applied
to the connection server, the dataset id, the class-keyed protocol tag, the
values of the `variables` and `constraints` properties (evaluated in keyword
order, threading the metadata memoization state, so the call lazily fetches
metadata when the fields are `None` and the `constraints` property may raise
an uncaught `ValueError`), and the response extension; trailing question
marks are stripped from the builder output before returning. -/
def get_download_url
    (builder : String → String → Option String → List String →
      List (String × String) → String → String)
    (d : ERDDAPDataset) (fetched : Meta) (st : MetaState) :
    Except PyErr String :=
  match constraints_value d fetched (variables_value d fetched st).2 with
  | .error e => .error e
  | .ok cs =>
      .ok (pyRstrip
        (builder d._connection.server d.dataset_id (protocolTag d.kind)
          (variables_value d fetched st).1 cs d._extension) '?')

/-- Components produced by the external parser
`erddapy.core.url._extract_url_components` from a full dataset URL. -/
structure UrlComponents where
  server : String
  protocol : String
  dataset_id : String
  extension : String

/-- Dispatch table of `from_url`:
`{"tabledap": TableDataset, "griddap": GridDataset}.get(protocol, ERDDAPDataset)`. -/
def dataset_class_get (protocol : String) : DatasetKind :=
  if protocol = "tabledap" then .table
  else if protocol = "griddap" then .grid
  else .base

/-- Static method `ERDDAPDataset.from_url`, with the external URL parser
abstracted as `extract`: wrap a string argument in a connection, pass a
connection through, raise `TypeError` otherwise; then parse `url.server` and
instantiate the dispatched class with the parsed server, dataset id and
extension. -/
def from_url (extract : String → UrlComponents) (url : PyValue) :
    Except PyErr ERDDAPDataset := do
  let c : ERDDAPConnection ←
    match url with
    | .str s => ERDDAPConnection.init (.str s) none
    | .conn c0 => pure c0
    | v =>
        .error (.typeError
          ("Value \x27" ++ pyStr v ++ "\x27 must be a string, it is of type \x27"
            ++ pyTypeStr v ++ "\x27."))
  let comps := extract c.server
  init (dataset_class_get comps.protocol) comps.dataset_id (.str comps.server)
    none none comps.extension

end ERDDAPDataset

/-- State of the Python local variable `tmp` of `ERDDAPConnection.open`; an
assignment whose right-hand side raises leaves the local unbound, and `bound`
carries the value (`none` standing for Python `None`, `some h` for a
temporary-file handle). -/
inductive TmpLocal where
  | unbound
  | bound (value : Option Nat)
  deriving DecidableEq

/-- Finally block of `ERDDAPConnection.open`:
`if tmp is not None: tmp.close()`. Reading an unbound local raises
`UnboundLocalError`; a bound non-`None` handle is closed. Returns the handle
closed, if any. -/
def open_finally (tmp : TmpLocal) : Except PyErr (Option Nat) :=
  match tmp with
  | .unbound =>
      .error (.unboundLocalError
        "local variable \x27tmp\x27 referenced before assignment")
  | .bound none => .ok none
  | .bound (some h) => .ok (some h)

/-- Outcome of one run of the `ERDDAPConnection.open` context manager: which
handle the finally block closed, the exception propagating from the try body
(creation failure or an exception at the yield), and any exception raised by
the finally block itself. -/
structure OpenOutcome where
  closed : Option Nat
  primary_error : Option PyErr
  secondary_error : Option PyErr
  deriving DecidableEq

/-- Method `ERDDAPConnection.open`:
`try: tmp = NamedTemporaryFile(...); yield Path(tmp.name)` then
`finally: if tmp is not None: tmp.close()`. `creation` is the result of
`NamedTemporaryFile` (a fresh handle, or a raised error, in which case `tmp`
stays unbound); `body_error` is an exception raised by the caller's block at
the yield (`none` for normal completion, including generator close). -/
def conn_open (creation : Except PyErr Nat) (body_error : Option PyErr) :
    OpenOutcome :=
  match creation with
  | .error e =>
      match open_finally .unbound with
      | .error e2 => ⟨none, some e, some e2⟩
      | .ok h => ⟨h, some e, none⟩
  | .ok handle =>
      match open_finally (.bound (some handle)) with
      | .error e2 => ⟨none, body_error, some e2⟩
      | .ok h => ⟨h, body_error, none⟩

/-- Stripping a trailing character is idempotent. -/
theorem pyRstrip_idem (s : String) (c : Char) :
    pyRstrip (pyRstrip s c) c = pyRstrip s c :=
  congrArg String.mk (List.rdropWhile_idempotent (fun x => x = c) s.data)

/-- After stripping trailing occurrences of `c`, the string no longer ends in
`c`. -/
theorem strLastChar_pyRstrip (s : String) (c : Char) :
    strLastChar (pyRstrip s c) ≠ some c := by
  intro h
  have hne : List.rdropWhile (fun x => x = c) s.data ≠ [] := by
    intro hnil
    rw [strLastChar, pyRstrip] at h
    rw [show (String.mk (List.rdropWhile (fun x => x = c) s.data)).data
        = List.rdropWhile (fun x => x = c) s.data from rfl, hnil] at h
    simp at h
  have hlast := List.rdropWhile_last_not (fun x => x = c) s.data hne
  rw [strLastChar, pyRstrip,
    show (String.mk (List.rdropWhile (fun x => x = c) s.data)).data
      = List.rdropWhile (fun x => x = c) s.data from rfl,
    List.getLast?_eq_getLast _ hne] at h
  exact hlast (by simp [Option.some.inj h])

/-- A middle factor of a three-part concatenation is mentioned. -/
theorem strMentions_concat (a b c : String) : strMentions (a ++ b ++ c) b := by
  rw [strMentions, String.data_append, String.data_append]
  exact List.infix_append _ _ _

/-- A mention survives appending on the right. -/
theorem strMentions_mono_right (s t sub : String) (h : strMentions s sub) :
    strMentions (s ++ t) sub := by
  rw [strMentions, String.data_append]
  exact h.trans ((List.prefix_append s.data t.data).isInfix)

/-- Accessing `meta` on an instance whose cache is already populated changes
nothing, however many times it is repeated. -/
theorem metaAccesses_cached (fetched m : Meta) (k n : Nat) :
    ERDDAPDataset.metaAccesses fetched n ⟨some m, k⟩ = ⟨some m, k⟩ := by
  induction n with
  | zero => rfl
  | succ n ih => exact ih

/-- Every `actual_range` attribute present in the metadata splits on `", "`
into exactly two parts. -/
def rangesWellFormed (m : Meta) : Prop :=
  ∀ p ∈ m, ∀ v, dictLookup "actual_range" p.2 = some v →
    (pySplit v ", ").length = 2

/-- Some variable carries an `actual_range` attribute that does not split on
`", "` into exactly two parts. -/
def hasMalformedRange (m : Meta) : Prop :=
  ∃ p ∈ m, ∃ v, dictLookup "actual_range" p.2 = some v ∧
    (pySplit v ", ").length ≠ 2

/-- Constraint mapping as the specification words it: for each variable whose
metadata carries an `actual_range` attribute of the form `"<low>, <high>"`,
exactly the two entries `">=" ++ var ↦ low` and `"<=" ++ var ↦ high`, in
metadata order, and no entries for other variables. -/
def constraintsSpec : Meta → List (String × String)
  | [] => []
  | (key, attrs) :: rest =>
      match dictLookup "actual_range" attrs with
      | some v =>
          match pySplit v ", " with
          | [lo, hi] =>
              (">=" ++ key, lo) :: ("<=" ++ key, hi) :: constraintsSpec rest
          | _ => constraintsSpec rest
      | none => constraintsSpec rest

/-- On well-formed metadata the source derivation agrees with the
specification mapping. -/
theorem derive_constraints_eq_spec (m : Meta) (h : rangesWellFormed m) :
    ERDDAPDataset.derive_constraints m = .ok (constraintsSpec m) := by
  induction m with
  | nil => rfl
  | cons p rest ih =>
    obtain ⟨key, attrs⟩ := p
    have hrest : rangesWellFormed rest := fun q hq v hv =>
      h q (List.mem_cons_of_mem _ hq) v hv
    cases hl : dictLookup "actual_range" attrs with
    | none =>
        simp only [ERDDAPDataset.derive_constraints, constraintsSpec, hl]
        exact ih hrest
    | some v =>
        have h2 := h (key, attrs) (List.mem_cons_self _ _) v hl
        match hs : pySplit v ", " with
        | [] => rw [hs] at h2; simp at h2
        | [a] => rw [hs] at h2; simp at h2
        | [a, b] =>
            simp only [ERDDAPDataset.derive_constraints, constraintsSpec, hl,
              ERDDAPDataset.split_actual_range, hs, ih hrest]
            rfl
        | a :: b :: c :: t => rw [hs] at h2; simp [List.length_cons] at h2

/-- Unpacking a malformed `actual_range` raises `ValueError`. -/
theorem split_actual_range_error (v : String)
    (h : (pySplit v ", ").length ≠ 2) :
    ∃ e, ERDDAPDataset.split_actual_range v = .error e := by
  cases hsp : pySplit v ", " with
  | nil => simp [ERDDAPDataset.split_actual_range, hsp]
  | cons a t1 =>
    cases t1 with
    | nil => simp [ERDDAPDataset.split_actual_range, hsp]
    | cons b t2 =>
      cases t2 with
      | nil => rw [hsp] at h; simp at h
      | cons c t3 =>
        refine ⟨.valueError "too many values to unpack (expected 2)", ?_⟩
        simp only [ERDDAPDataset.split_actual_range, hsp]
        rw [if_neg (by simp only [List.length_cons]; omega)]

/-- Metadata containing a malformed `actual_range` makes the derivation loop
raise rather than return a constraints mapping. -/
theorem derive_constraints_error_of_malformed (m : Meta)
    (h : hasMalformedRange m) :
    ∃ e, ERDDAPDataset.derive_constraints m = .error e := by
  induction m with
  | nil => obtain ⟨p, hp, _⟩ := h; simp at hp
  | cons p rest ih =>
    obtain ⟨q, hq, v, hv, hlen⟩ := h
    obtain ⟨key, attrs⟩ := p
    rcases List.mem_cons.mp hq with hq1 | hq2
    · subst hq1
      have hv2 : dictLookup "actual_range" attrs = some v := hv
      obtain ⟨e, he⟩ := split_actual_range_error v hlen
      refine ⟨e, ?_⟩
      simp only [ERDDAPDataset.derive_constraints, hv2, he]
      rfl
    · cases hl : dictLookup "actual_range" attrs with
      | none =>
          simp only [ERDDAPDataset.derive_constraints, hl]
          exact ih ⟨q, hq2, v, hv, hlen⟩
      | some w =>
          cases hsw : ERDDAPDataset.split_actual_range w with
          | error e =>
              refine ⟨e, ?_⟩
              simp only [ERDDAPDataset.derive_constraints, hl, hsw]
              rfl
          | ok lh =>
              obtain ⟨lo, hi⟩ := lh
              obtain ⟨e, he⟩ := ih ⟨q, hq2, v, hv, hlen⟩
              refine ⟨e, ?_⟩
              simp only [ERDDAPDataset.derive_constraints, hl, hsw, he]
              rfl

/-- C1: on one Dataset instance (whose `_meta` attribute is `None`, as the
constructor leaves it and as no source code path ever assigns it), two
consecutive accesses to the `meta` property trigger exactly one transport
fetch and return the same mapping, and any number of later accesses leaves
the fetch count at one. -/
theorem c1_meta_memoized (fetched : Meta) :
    (ERDDAPDataset.meta_value none fetched ⟨none, 0⟩).1
        = (ERDDAPDataset.meta_value none fetched
            (ERDDAPDataset.meta_value none fetched ⟨none, 0⟩).2).1 ∧
    (ERDDAPDataset.meta_value none fetched
        (ERDDAPDataset.meta_value none fetched ⟨none, 0⟩).2).2.fetch_count = 1 ∧
    ∀ n : Nat,
      (ERDDAPDataset.metaAccesses fetched (n + 1) ⟨none, 0⟩).fetch_count = 1 := by
  refine ⟨rfl, rfl, fun n => ?_⟩
  have hiter : ERDDAPDataset.metaAccesses fetched (n + 1) ⟨none, 0⟩
      = ⟨some fetched, 1⟩ := by
    show ERDDAPDataset.metaAccesses fetched n ⟨some fetched, 1⟩ = _
    exact metaAccesses_cached fetched fetched 1 n
  rw [hiter]

/-- C3: whenever `get_download_url` returns a string (the `constraints`
property it evaluates may instead raise), that string never ends in a
question mark and equals the external builder output — applied to the values
produced by the `variables` and `constraints` properties — with trailing
question marks stripped, for every dataset of any concrete class, any stored
variables/constraints/extension, any metadata and any cache state. -/
theorem c3_download_url_no_trailing_question
    (builder : String → String → Option String → List String →
      List (String × String) → String → String)
    (d : ERDDAPDataset) (fetched : Meta) (st : ERDDAPDataset.MetaState)
    (url : String)
    (h : ERDDAPDataset.get_download_url builder d fetched st = .ok url) :
    strLastChar url ≠ some '?' ∧
    ∃ cs, ERDDAPDataset.constraints_value d fetched
        (ERDDAPDataset.variables_value d fetched st).2 = .ok cs ∧
      url = pyRstrip
          (builder d._connection.server d.dataset_id
            (ERDDAPDataset.protocolTag d.kind)
            (ERDDAPDataset.variables_value d fetched st).1 cs d._extension)
          '?' := by
  simp only [ERDDAPDataset.get_download_url] at h
  cases hc : ERDDAPDataset.constraints_value d fetched
      (ERDDAPDataset.variables_value d fetched st).2 with
  | error e => rw [hc] at h; exact Except.noConfusion h
  | ok cs =>
      rw [hc] at h
      have hu := Except.ok.inj h
      exact ⟨hu ▸ strLastChar_pyRstrip _ _, cs, rfl, hu.symm⟩

/-- C3 witness: a fresh Dataset (no stored variables or constraints) with
well-formed concrete metadata and a constant builder whose output ends in a
question mark. -/
theorem c3_download_url_no_trailing_question_witness :
    strLastChar "https://example.com/erddap/ds1.csv" ≠ some '?' ∧
    ∃ cs, ERDDAPDataset.constraints_value
        ⟨.base, "ds1", ⟨"https://example.com/erddap", none⟩, none, none,
          "csv", none⟩
        [("temp", [("actual_range", "10.0, 25.0")])]
        (ERDDAPDataset.variables_value
          ⟨.base, "ds1", ⟨"https://example.com/erddap", none⟩, none, none,
            "csv", none⟩
          [("temp", [("actual_range", "10.0, 25.0")])] ⟨none, 0⟩).2
        = .ok cs ∧
      "https://example.com/erddap/ds1.csv"
        = pyRstrip "https://example.com/erddap/ds1.csv?" '?' :=
  c3_download_url_no_trailing_question
    (fun _ _ _ _ _ _ => "https://example.com/erddap/ds1.csv?")
    ⟨.base, "ds1", ⟨"https://example.com/erddap", none⟩, none, none, "csv",
      none⟩
    [("temp", [("actual_range", "10.0, 25.0")])] ⟨none, 0⟩
    "https://example.com/erddap/ds1.csv" rfl

/-- C8: on string inputs, `to_string` agrees with itself on the pre-stripped
input, and is idempotent. -/
theorem c8_to_string_idempotent (s : String) :
    ERDDAPConnection.to_string (.str s)
        = ERDDAPConnection.to_string (.str (pyRstrip s '/')) ∧
    (ERDDAPConnection.to_string (.str s)).bind
        (fun r => ERDDAPConnection.to_string (.str r))
      = ERDDAPConnection.to_string (.str s) := by
  constructor
  · show Except.ok (pyRstrip s '/') = Except.ok (pyRstrip (pyRstrip s '/') '/')
    rw [pyRstrip_idem]
  · show Except.ok (pyRstrip (pyRstrip s '/') '/') = Except.ok (pyRstrip s '/')
    rw [pyRstrip_idem]

/-- C9: runs of the `open` context manager — when the temporary file is
created, every exit path (normal completion or an exception in the caller's
block) closes the handle with no secondary error; but when creation itself
raises, the `finally` block raises `UnboundLocalError` on the unbound local
`tmp` as a secondary error, contradicting the claim for that exit path. -/
theorem c9_open_exit_paths :
    (∀ (h : Nat) (b : Option PyErr),
      conn_open (.ok h) b = ⟨some h, b, none⟩) ∧
    ∀ (e : PyErr) (b : Option PyErr),
      conn_open (.error e) b
        = ⟨none, some e,
            some (.unboundLocalError
              "local variable \x27tmp\x27 referenced before assignment")⟩ :=
  ⟨fun _ _ => rfl, fun _ _ => rfl⟩

/-- C10: a Dataset built by passing a Connection that carries auth
credentials owns a Connection whose auth is `None`: construction funnels only
the canonical server string through `to_string`, silently dropping the
credentials. -/
theorem c10_dataset_init_drops_auth (kind : DatasetKind)
    (dataset_id srv : String) (a : String × String)
    (vars : Option (List String)) (cons : Option (List (String × String)))
    (ext : String) :
    ∃ d, ERDDAPDataset.init kind dataset_id (.conn ⟨srv, some a⟩) vars cons ext
        = .ok d ∧
      d._connection.auth = none ∧
      d._connection.server = pyRstrip (pyRstrip srv '/') '/' :=
  ⟨⟨kind, dataset_id, ⟨pyRstrip (pyRstrip srv '/') '/', none⟩, vars, cons, ext,
      none⟩, rfl, rfl, rfl⟩

/-- Executable check that an attribute mapping has a well-formed
`actual_range` (or none at all). -/
def rangeOk (attrs : List (String × String)) : Bool :=
  match dictLookup "actual_range" attrs with
  | some v => (pySplit v ", ").length == 2
  | none => true

/-- Bridge from the executable check to the well-formedness statement. -/
theorem rangeOk_spec (attrs : List (String × String)) (h : rangeOk attrs = true) :
    ∀ v, dictLookup "actual_range" attrs = some v →
      (pySplit v ", ").length = 2 := by
  intro v hv
  simp only [rangeOk, hv, beq_iff_eq] at h
  exact h

/-- Bridge from a failing executable check to a malformed-range witness. -/
theorem rangeOk_false (attrs : List (String × String))
    (h : rangeOk attrs = false) :
    ∃ v, dictLookup "actual_range" attrs = some v ∧
      (pySplit v ", ").length ≠ 2 := by
  cases hl : dictLookup "actual_range" attrs with
  | none => simp only [rangeOk, hl] at h; exact absurd h (by simp)
  | some v =>
      refine ⟨v, rfl, ?_⟩
      simp only [rangeOk, hl] at h
      simpa using h

/-- A metadata list passing the executable check everywhere is well
formed. -/
theorem rangesWellFormed_of_all (m : Meta)
    (h : m.all (fun p => rangeOk p.2) = true) : rangesWellFormed m :=
  fun p hp => rangeOk_spec p.2 (List.all_eq_true.mp h p hp)

/-- A metadata list failing the executable check somewhere has a malformed
range. -/
theorem hasMalformedRange_of_any (m : Meta)
    (h : m.any (fun p => ! rangeOk p.2) = true) : hasMalformedRange m := by
  obtain ⟨p, hp, hb⟩ := List.any_eq_true.mp h
  obtain ⟨v, hv, hlen⟩ := rangeOk_false p.2 (by simpa using hb)
  exact ⟨p, hp, v, hv, hlen⟩

/-- C2: for a Dataset constructed with no explicit constraints (its
`_constraints` and `_meta` attributes are `None` and its memoization cache is
fresh), the `constraints` property maps each variable carrying a well-formed
`actual_range` `"<low>, <high>"` to exactly the entries `">=" ++ var ↦ low`
and `"<=" ++ var ↦ high` and contributes nothing for other variables; in
particular on `{"temp": {"actual_range": "10.0, 25.0"}, "flag": {}}` it
yields `{">=temp": "10.0", "<=temp": "25.0"}`. -/
theorem c2_constraints_derivation :
    (∀ (d : ERDDAPDataset) (fetched : Meta) (st : ERDDAPDataset.MetaState),
      d._constraints = none → d._meta = none → st.cache = none →
      rangesWellFormed fetched →
      ERDDAPDataset.constraints_value d fetched st
        = .ok (constraintsSpec fetched)) ∧
    ERDDAPDataset.derive_constraints
        [("temp", [("actual_range", "10.0, 25.0")]), ("flag", [])]
      = .ok [(">=temp", "10.0"), ("<=temp", "25.0")] := by
  constructor
  · intro d fetched st h1 h2 h3 hwf
    simp only [ERDDAPDataset.constraints_value, h1, ERDDAPDataset.meta_value,
      h2, ERDDAPDataset.get_meta, h3]
    exact derive_constraints_eq_spec fetched hwf
  · rfl

/-- C2 witness: the first component applied to a concrete fresh Dataset and
the concrete metadata of the claim. -/
theorem c2_constraints_derivation_witness :
    ERDDAPDataset.constraints_value
        ⟨.base, "ds1", ⟨"https://example.com/erddap", none⟩, none, none,
          "csv", none⟩
        [("temp", [("actual_range", "10.0, 25.0")]), ("flag", [])] ⟨none, 0⟩
      = .ok (constraintsSpec
          [("temp", [("actual_range", "10.0, 25.0")]), ("flag", [])]) :=
  c2_constraints_derivation.1 _ _ _ rfl rfl rfl
    (rangesWellFormed_of_all _ (by decide))

/-- C7: on a Dataset with no stored constraints and a fresh metadata cache,
metadata containing an `actual_range` that does not split on `", "` into
exactly two parts makes the `constraints` property raise an uncaught
`ValueError` rather than produce a guarded result. -/
theorem c7_malformed_range_raises
    (d : ERDDAPDataset) (fetched : Meta) (st : ERDDAPDataset.MetaState)
    (h1 : d._constraints = none) (h2 : d._meta = none) (h3 : st.cache = none)
    (hbad : hasMalformedRange fetched) :
    ∃ e, ERDDAPDataset.constraints_value d fetched st = .error e := by
  simp only [ERDDAPDataset.constraints_value, h1, ERDDAPDataset.meta_value,
    h2, ERDDAPDataset.get_meta, h3]
  exact derive_constraints_error_of_malformed fetched hbad

/-- C7 witness: a concrete fresh Dataset and metadata whose `actual_range`
has no `", "` separator. -/
theorem c7_malformed_range_raises_witness :
    ∃ e, ERDDAPDataset.constraints_value
        ⟨.base, "ds1", ⟨"https://example.com/erddap", none⟩, none, none,
          "csv", none⟩
        [("temp", [("actual_range", "10.0")])] ⟨none, 0⟩ = .error e :=
  c7_malformed_range_raises _ _ _ rfl rfl rfl
    (hasMalformedRange_of_any _ (by decide))

/-- C5: the `server` attribute is canonical (no trailing slash) whenever the
constructor or the setter succeeds, both pass their value through the same
`to_string` normalization, and nesting constructors preserves the canonical
string: `Connection(Connection("https://x.org/erddap/")).server` equals
`"https://x.org/erddap"`. -/
theorem c5_connection_server_canonical :
    (∀ (v : PyValue) (a : Option (String × String)) (c : ERDDAPConnection),
      ERDDAPConnection.init v a = .ok c → strLastChar c.server ≠ some '/') ∧
    (∀ (c0 : ERDDAPConnection) (v : PyValue) (c : ERDDAPConnection),
      ERDDAPConnection.set_server c0 v = .ok c →
        strLastChar c.server ≠ some '/') ∧
    (∀ (c0 : ERDDAPConnection) (v : PyValue),
      (ERDDAPConnection.set_server c0 v).map ERDDAPConnection.server
        = (ERDDAPConnection.init v c0.auth).map ERDDAPConnection.server) ∧
    ∃ c1 c2,
      ERDDAPConnection.init (.str "https://x.org/erddap/") none = .ok c1 ∧
      ERDDAPConnection.init (.conn c1) none = .ok c2 ∧
      c2.server = "https://x.org/erddap" := by
  refine ⟨?_, ?_, ?_, ?_⟩
  · intro v a c h
    cases v with
    | str s =>
        have hc : ERDDAPConnection.mk (pyRstrip s '/') a = c :=
          Except.ok.inj h
        rw [← hc]
        exact strLastChar_pyRstrip s '/'
    | conn c0 =>
        have hc : ERDDAPConnection.mk (pyRstrip c0.server '/') a = c :=
          Except.ok.inj h
        rw [← hc]
        exact strLastChar_pyRstrip c0.server '/'
    | int n => exact Except.noConfusion h
    | pynone => exact Except.noConfusion h
  · intro c0 v c h
    cases v with
    | str s =>
        have hc : ERDDAPConnection.mk (pyRstrip s '/') c0.auth = c :=
          Except.ok.inj h
        rw [← hc]
        exact strLastChar_pyRstrip s '/'
    | conn c1 =>
        have hc : ERDDAPConnection.mk (pyRstrip c1.server '/') c0.auth = c :=
          Except.ok.inj h
        rw [← hc]
        exact strLastChar_pyRstrip c1.server '/'
    | int n => exact Except.noConfusion h
    | pynone => exact Except.noConfusion h
  · intro c0 v
    cases v <;> rfl
  · exact ⟨⟨"https://x.org/erddap", none⟩, ⟨"https://x.org/erddap", none⟩,
      rfl, rfl, rfl⟩

/-- C5 witness: the constructor and setter clauses applied to concrete
inputs with trailing slashes. -/
theorem c5_connection_server_canonical_witness :
    strLastChar (ERDDAPConnection.mk "https://a.org" none).server
        ≠ some '/' ∧
    strLastChar
        (ERDDAPConnection.mk "https://b.org" (some ("u", "p"))).server
      ≠ some '/' :=
  ⟨c5_connection_server_canonical.1 (.str "https://a.org//") none _ rfl,
   c5_connection_server_canonical.2.1 ⟨"https://c.org", some ("u", "p")⟩
     (.str "https://b.org/") _ rfl⟩

/-- C6: `from_url` dispatches on the parsed protocol segment — `tabledap`
gives a `TableDataset`, `griddap` a `GridDataset`, anything else the base
class — and instantiates it with the parsed server (normalized through the
connection), dataset id and extension, both for string URLs and for
connection arguments. -/
theorem c6_from_url_dispatch
    (extract : String → ERDDAPDataset.UrlComponents) (s : String) :
    (∃ d : ERDDAPDataset,
      ERDDAPDataset.from_url extract (.str s) = .ok d ∧
      d.kind
          = (if (extract (pyRstrip s '/')).protocol = "tabledap" then
              DatasetKind.table
            else if (extract (pyRstrip s '/')).protocol = "griddap" then
              DatasetKind.grid
            else DatasetKind.base) ∧
      d.dataset_id = (extract (pyRstrip s '/')).dataset_id ∧
      d._extension = (extract (pyRstrip s '/')).extension ∧
      d._connection.server
        = pyRstrip (pyRstrip (extract (pyRstrip s '/')).server '/') '/') ∧
    ∀ c0 : ERDDAPConnection, ∃ d : ERDDAPDataset,
      ERDDAPDataset.from_url extract (.conn c0) = .ok d ∧
      d.kind
          = (if (extract c0.server).protocol = "tabledap" then
              DatasetKind.table
            else if (extract c0.server).protocol = "griddap" then
              DatasetKind.grid
            else DatasetKind.base) ∧
      d.dataset_id = (extract c0.server).dataset_id ∧
      d._extension = (extract c0.server).extension ∧
      d._connection.server
        = pyRstrip (pyRstrip (extract c0.server).server '/') '/' := by
  constructor
  · exact ⟨⟨ERDDAPDataset.dataset_class_get (extract (pyRstrip s '/')).protocol,
      (extract (pyRstrip s '/')).dataset_id,
      ⟨pyRstrip (pyRstrip (extract (pyRstrip s '/')).server '/') '/', none⟩,
      none, none, (extract (pyRstrip s '/')).extension, none⟩,
      rfl, rfl, rfl, rfl, rfl⟩
  · intro c0
    exact ⟨⟨ERDDAPDataset.dataset_class_get (extract c0.server).protocol,
      (extract c0.server).dataset_id,
      ⟨pyRstrip (pyRstrip (extract c0.server).server '/') '/', none⟩,
      none, none, (extract c0.server).extension, none⟩,
      rfl, rfl, rfl, rfl, rfl⟩

set_option maxRecDepth 4000 in
/-- C4 counterexample: at the non-string non-connection value `3`,
`to_string` raises a `TypeError` whose message names the value but does not
contain the type string `"<class 'int'>"` — refuting the claim that on every
such input all three paths fail with a message naming the offending value
and its type. -/
theorem c4_counterexample :
    ERDDAPConnection.to_string (.int 3)
        = .error (.typeError
          "Server must be either a string or an instance of ERDDAPConnection. \x273\x27 was passed.") ∧
    strMentions
        "Server must be either a string or an instance of ERDDAPConnection. \x273\x27 was passed."
        (pyStr (.int 3)) ∧
    ¬ strMentions
        "Server must be either a string or an instance of ERDDAPConnection. \x273\x27 was passed."
        (pyTypeStr (.int 3)) := by
  refine ⟨rfl, by decide, by decide⟩

/-- C4 (amended): for every value that is neither a string nor a connection,
`to_string`, the Connection constructor and `from_url` all fail immediately
with a `TypeError`; every message names the offending value, and `from_url`'s
message additionally names its type (the `to_string` / constructor message
does not include the type, per the counterexample). -/
theorem c4_type_error_paths (v : PyValue) (h : v.isOther = true) :
    (∃ msg, ERDDAPConnection.to_string v = .error (.typeError msg) ∧
      strMentions msg (pyStr v)) ∧
    (∀ a, ∃ msg, ERDDAPConnection.init v a = .error (.typeError msg) ∧
      strMentions msg (pyStr v)) ∧
    (∀ extract, ∃ msg,
      ERDDAPDataset.from_url extract v = .error (.typeError msg) ∧
      strMentions msg (pyStr v) ∧ strMentions msg (pyTypeStr v)) := by
  cases v with
  | str s => simp [PyValue.isOther] at h
  | conn c => simp [PyValue.isOther] at h
  | int n =>
      refine ⟨⟨_, rfl, strMentions_concat _ _ _⟩,
        fun a => ⟨_, rfl, strMentions_concat _ _ _⟩,
        fun extract => ⟨_, rfl, ?_, strMentions_concat _ _ _⟩⟩
      exact strMentions_mono_right _ _ _
        (strMentions_mono_right _ _ _ (strMentions_concat _ _ _))
  | pynone =>
      refine ⟨⟨_, rfl, strMentions_concat _ _ _⟩,
        fun a => ⟨_, rfl, strMentions_concat _ _ _⟩,
        fun extract => ⟨_, rfl, ?_, strMentions_concat _ _ _⟩⟩
      exact strMentions_mono_right _ _ _
        (strMentions_mono_right _ _ _ (strMentions_concat _ _ _))

/-- C4 witness: the amended first clause applied at the concrete value
`None`. -/
theorem c4_type_error_paths_witness :
    ∃ msg, ERDDAPConnection.to_string .pynone = .error (.typeError msg) ∧
      strMentions msg (pyStr .pynone) :=
  (c4_type_error_paths .pynone rfl).1
